import Mathlib

/-!
Shallow embedding of the Bee Bright backend (src/app.js and the near-duplicate
variant src/unnamed/part_000): JWT session issue/verify, the verifyAdmin
authorization gate, the login handler, the single-document content store, and
the contact relay. The bcrypt hash check and the JWT MAC are foreign
primitives of the bcryptjs and jsonwebtoken libraries, so every definition is
parameterized over them (bcheck, mac); the handlers themselves are embedded
from the source line by line.
-/

deriving instance DecidableEq for Except

namespace BeeBright

/-- JSON-derived values as they reach a handler from req.body (body-parser). -/
inductive JsVal where
  | str (s : String)
  | num (n : Int)
  | boolean (b : Bool)
  | null
  | undef
  deriving DecidableEq

/-- JS template-literal coercion of a value to text, as used inside the
mail body template string of POST /enviarCorreo. -/
def jsToString : JsVal → String
  | .str s => s
  | .num n => toString n
  | .boolean b => if b then "true" else "false"
  | .null => "null"
  | .undef => "undefined"

/-- JS String.prototype.trim as used by the contact validation: drop
whitespace characters from both ends. -/
def jsTrim (s : String) : String :=
  ⟨((s.data.dropWhile fun c => c.isWhitespace).reverse.dropWhile
      fun c => c.isWhitespace).reverse⟩

/-- src/app.js line 168: typeof value === "string" && value.trim() !== "". -/
def isValidString : JsVal → Bool
  | .str s => jsTrim s ≠ ""
  | _ => false

/-- JWT payload as produced by jwt.sign: the username field of the request
body (absent when it was not a string), plus iat and exp claims (seconds). -/
structure Payload where
  username : Option String
  iat : Nat
  exp : Nat
  deriving DecidableEq

/-- A structurally well-formed JWT: payload plus signature tag. -/
structure Token where
  payload : Payload
  tag : String
  deriving DecidableEq

/-- A cookie value presented as a token: either a well-formed JWT or an
arbitrary string that does not even parse as one. -/
inductive RawToken where
  | wellFormed (t : Token)
  | malformed (s : String)
  deriving DecidableEq

/-- jwt.sign of src/app.js line 87: embeds the username, sets iat to now and
exp to now + 7200 (expiresIn 2h), and signs with the process secret using
the library MAC primitive. -/
def jwtSign (mac : String → Payload → String) (secret : String)
    (username : Option String) (now : Nat) : Token :=
  let p : Payload := ⟨username, now, now + 7200⟩
  ⟨p, mac secret p⟩

/-- jwt.verify of src/app.js line 66 on a well-formed token: fails on a bad
signature, then fails when the clock has reached exp (jsonwebtoken treats
now ≥ exp as expired), otherwise yields the payload. -/
def jwtVerify (mac : String → Payload → String) (secret : String)
    (t : Token) (now : Nat) : Except String Payload :=
  if t.tag ≠ mac secret t.payload then .error "invalid signature"
  else if t.payload.exp ≤ now then .error "jwt expired"
  else .ok t.payload

/-- jwt.verify on a raw cookie value: a string that is not a JWT at all is
rejected as malformed before any signature check. -/
def jwtVerifyRaw (mac : String → Payload → String) (secret : String)
    (r : RawToken) (now : Nat) : Except String Payload :=
  match r with
  | .malformed _ => .error "jwt malformed"
  | .wellFormed t => jwtVerify mac secret t now

/-- Whether an Except carries a success. -/
def isOk {ε α : Type} : Except ε α → Bool
  | .ok _ => true
  | .error _ => false

/-- An HTTP response as the handlers build it: status code and body text
(for res.redirect the body records the Location target). -/
structure Response where
  status : Nat
  body : String
  deriving DecidableEq

/-- Outcome of the verifyAdmin middleware: reject with a response, or call
next() and let the downstream handler run. -/
inductive GateResult where
  | reject (r : Response)
  | proceed
  deriving DecidableEq

/-- verifyAdmin of src/app.js lines 61-71: no cookie -> 403 No autorizado;
cookie failing jwt.verify -> 403 Token inválido; otherwise next(). -/
def verifyAdmin (mac : String → Payload → String) (secret : String)
    (cookie : Option RawToken) (now : Nat) : GateResult :=
  match cookie with
  | none => .reject ⟨403, "No autorizado"⟩
  | some raw =>
    match jwtVerifyRaw mac secret raw now with
    | .ok _ => .proceed
    | .error _ => .reject ⟨403, "Token inválido"⟩

/-- GET /admin and /admin.html of src/app.js lines 98-122: no cookie or a
cookie failing jwt.verify redirects (302) to /login.html, a verifying cookie
serves the admin page file. -/
def adminPage (mac : String → Payload → String) (secret : String)
    (cookie : Option RawToken) (now : Nat) : Response :=
  match cookie with
  | none => ⟨302, "/login.html"⟩
  | some raw =>
    match jwtVerifyRaw mac secret raw now with
    | .ok _ => ⟨200, "public/admin.html"⟩
    | .error _ => ⟨302, "/login.html"⟩

/-- ADMIN_USER of src/app.js lines 74-77: the configured admin identity,
username plus bcrypt password hash. -/
structure AdminUser where
  username : String
  passwordHash : String
  deriving DecidableEq

/-- bcryptjs compareSync of src/app.js line 83: throws Illegal arguments
unless the data argument is a string, otherwise applies the bcrypt check
primitive bcheck against the stored hash. -/
def compareSync (bcheck : String → String → Bool) (password : JsVal)
    (hash : String) : Except String Bool :=
  match password with
  | .str s => .ok (bcheck s hash)
  | _ => .error "Illegal arguments"

/-- Cookie attributes passed to res.cookie (sameSite is the attribute value
when the option is given, none when the option is omitted). -/
structure CookieOpts where
  httpOnly : Bool
  secure : Bool
  sameSite : Option String
  deriving DecidableEq

/-- A Set-Cookie instruction: cookie name, token value, attributes. -/
structure SetCookie where
  name : String
  value : Token
  opts : CookieOpts
  deriving DecidableEq

/-- What the login handler sends: status, message, and the cookie it set
(none when no res.cookie call happened). -/
structure LoginResponse where
  status : Nat
  message : String
  cookie : Option SetCookie
  deriving DecidableEq

/-- The username value of the request body as embedded into the JWT payload
(jwt.sign stores the body field; it is a string on the only path that signs). -/
def jsAsStr : JsVal → Option String
  | .str s => some s
  | _ => none

/-- POST /api/login of src/app.js lines 80-90: username compared with
strict equality, then bcrypt.compareSync (which throws on a non-string
password, surfacing as .error); on mismatch 401 Credenciales inválidas with
no cookie; on match, sign a 2h token and set it as the token cookie with
the attributes of the variant. -/
def login (bcheck : String → String → Bool) (mac : String → Payload → String)
    (admin : AdminUser) (secret : String) (opts : CookieOpts)
    (username password : JsVal) (now : Nat) : Except String LoginResponse :=
  if username ≠ JsVal.str admin.username then
    .ok ⟨401, "Credenciales inválidas", none⟩
  else
    match compareSync bcheck password admin.passwordHash with
    | .error e => .error e
    | .ok false => .ok ⟨401, "Credenciales inválidas", none⟩
    | .ok true =>
      let tok := jwtSign mac secret (jsAsStr username) now
      .ok ⟨200, "Login exitoso", some ⟨"token", tok, opts⟩⟩

/-- Cookie attributes of src/app.js line 88: httpOnly, secure false (in every
environment; the production flag is not consulted), no sameSite option. -/
def appJsCookieOpts (_isProduction : Bool) : CookieOpts :=
  ⟨true, false, none⟩

/-- Cookie attributes of src/unnamed/part_000 lines 102-108: httpOnly,
secure exactly when NODE_ENV is production, sameSite None. -/
def part000CookieOpts (isProduction : Bool) : CookieOpts :=
  ⟨true, isProduction, some "None"⟩

/-- The login route of src/app.js (cookie attributes of line 88). -/
def loginAppJs (bcheck : String → String → Bool)
    (mac : String → Payload → String) (admin : AdminUser) (secret : String)
    (isProduction : Bool) (username password : JsVal) (now : Nat) :
    Except String LoginResponse :=
  login bcheck mac admin secret (appJsCookieOpts isProduction)
    username password now

/-- The login route of src/unnamed/part_000 (cookie attributes of
lines 102-108). -/
def loginPart000 (bcheck : String → String → Bool)
    (mac : String → Payload → String) (admin : AdminUser) (secret : String)
    (isProduction : Bool) (username password : JsVal) (now : Nat) :
    Except String LoginResponse :=
  login bcheck mac admin secret (part000CookieOpts isProduction)
    username password now

/-- A MongoDB document of the contenido collection: field names to values,
keys unique in any document MongoDB or JSON produces. -/
abbrev Doc : Type := List (String × JsVal)

/-- The contenido collection: a list of documents. -/
abbrev Store : Type := List Doc

/-- Field lookup in a document. -/
def docGet (d : Doc) (k : String) : Option JsVal :=
  (d.find? (fun kv => kv.1 = k)).map (fun kv => kv.2)

/-- One field assignment of the $set operator: overwrite the field in place
when present, append it otherwise. -/
def setField : Doc → String → JsVal → Doc
  | [], k, v => [(k, v)]
  | (k0, v0) :: rest, k, v =>
    if k0 = k then (k, v) :: rest else (k0, v0) :: setField rest k v

/-- The $set update operator of src/app.js line 142: assign every field of
the update data into the document, in order. -/
def applySet (d : Doc) (data : Doc) : Doc :=
  data.foldl (fun acc kv => setField acc kv.1 kv.2) d

/-- The filter of updateOne/findOne: the document whose id field equals
the string site-content. -/
def matchesFilter (d : Doc) : Bool :=
  docGet d "id" = some (JsVal.str "site-content")

/-- collection.updateOne of src/app.js lines 140-144 restricted to the call
the code makes: apply $set data to the first document matching the filter;
with upsert true, when none matches, insert a document built from the filter
equality fields and then the $set fields. -/
def updateOneUpsert : Store → Doc → Store
  | [], data => [applySet [("id", JsVal.str "site-content")] data]
  | d :: ds, data =>
    if matchesFilter d then applySet d data :: ds
    else d :: updateOneUpsert ds data

/-- collection.findOne of src/app.js line 156: first document matching the
site-content filter. -/
def findOne (store : Store) : Option Doc :=
  store.find? matchesFilter

/-- GET /api/get-content of src/app.js lines 153-162: the singleton document,
or the empty object when none exists (data || \x7b\x7d). -/
def getContent (store : Store) : Doc :=
  (findOne store).getD []

/-- A protected route: verifyAdmin first; on rejection the response is the
the one of the gate and the handler never touches the state, on next() the handler runs. -/
def gatedRoute {σ : Type} (mac : String → Payload → String) (secret : String)
    (cookie : Option RawToken) (now : Nat)
    (handler : σ → σ × Response) (st : σ) : σ × Response :=
  match verifyAdmin mac secret cookie now with
  | .reject r => (st, r)
  | .proceed => handler st

/-- POST /api/update-section of src/app.js lines 136-150 behind verifyAdmin:
upsert the request body into the site-content document. -/
def updateSectionRoute (mac : String → Payload → String) (secret : String)
    (cookie : Option RawToken) (now : Nat) (body : Doc) (store : Store) :
    Store × Response :=
  gatedRoute mac secret cookie now
    (fun st => (updateOneUpsert st body, ⟨200, "Contenido actualizado"⟩)) store

/-- The nodemailer message POST /enviarCorreo builds (lines 174-179). -/
structure MailOptions where
  fromAddr : String
  toAddr : String
  subject : String
  text : String
  deriving DecidableEq

/-- POST /enviarCorreo of src/app.js lines 165-189: reject with 400 unless
gname, gmail and message are non-empty strings after trimming (cname and
cage are not validated); otherwise build the mail exactly as the template
string does and hand it to the transporter. -/
def enviarCorreo (emailTo : String) (gname gmail cname cage message : JsVal) :
    Except Response MailOptions :=
  if !isValidString gname || !isValidString gmail || !isValidString message then
    .error ⟨400, "Por favor, completa todos los campos obligatorios."⟩
  else
    .ok ⟨jsToString gmail, emailTo,
      "Consulta de " ++ jsToString gname ++ " - Bee Bright",
      "Nombre: " ++ jsToString gname ++ "\nCorreo: " ++ jsToString gmail ++
        "\nNombre del niño: " ++ jsToString cname ++ "\nEdad: " ++
        jsToString cage ++ "\n\nMensaje:\n" ++ jsToString message⟩

/-- A concrete stand-in for the jsonwebtoken MAC primitive, used by
witnesses: an injective encoding of secret and payload. -/
def demoMac (secret : String) (p : Payload) : String :=
  secret ++ "|" ++ toString p.iat ++ "|" ++ toString p.exp ++ "|" ++
    (p.username.getD "<none>")

/-- A concrete stand-in for the bcrypt check primitive, used by witnesses. -/
def demoBcheck (password hash : String) : Bool :=
  hash = password ++ "#bcrypt"

/-- A concrete admin identity for witnesses (the default credentials of
src/app.js lines 74-77 under demoBcheck). -/
def demoAdmin : AdminUser :=
  ⟨"admin", "123456#bcrypt"⟩

/-- A concrete token for witnesses: signed with demoMac at time 0. -/
def demoToken : Token :=
  jwtSign demoMac "secretkey" (some "admin") 0

theorem docGet_cons (k0 : String) (v0 : JsVal) (rest : Doc) (k : String) :
    docGet ((k0, v0) :: rest) k = if k0 = k then some v0 else docGet rest k := by
  unfold docGet
  by_cases h : k0 = k
  · simp [List.find?, h]
  · simp [List.find?, h]

theorem docGet_setField_self (d : Doc) (k : String) (v : JsVal) :
    docGet (setField d k v) k = some v := by
  induction d with
  | nil => simp [setField, docGet_cons]
  | cons kv rest ih =>
    obtain ⟨k0, v0⟩ := kv
    by_cases h : k0 = k
    · simp [setField, h, docGet_cons]
    · simp [setField, h, docGet_cons, ih]

theorem docGet_setField_ne (d : Doc) (k : String) (v : JsVal) (k' : String)
    (h : k ≠ k') : docGet (setField d k v) k' = docGet d k' := by
  induction d with
  | nil => simp [setField, docGet_cons, docGet, h]
  | cons kv rest ih =>
    obtain ⟨k0, v0⟩ := kv
    by_cases h0 : k0 = k
    · subst h0
      simp [setField, docGet_cons, h]
    · simp [setField, h0, docGet_cons, ih]

theorem docGet_applySet_none (d : Doc) (patch : Doc) (k : String)
    (h : docGet patch k = none) :
    docGet (applySet d patch) k = docGet d k := by
  induction patch generalizing d with
  | nil => rfl
  | cons kv rest ih =>
    obtain ⟨k0, v0⟩ := kv
    rw [docGet_cons] at h
    by_cases h0 : k0 = k
    · simp [h0] at h
    · have h1 : docGet rest k = none := by simpa [h0] using h
      have : applySet d ((k0, v0) :: rest) = applySet (setField d k0 v0) rest := rfl
      rw [this, ih (setField d k0 v0) h1, docGet_setField_ne d k0 v0 k h0]

theorem docGet_applySet_mem (d : Doc) (patch : Doc)
    (hnodup : (patch.map Prod.fst).Nodup) :
    ∀ k v, (k, v) ∈ patch → docGet (applySet d patch) k = some v := by
  induction patch generalizing d with
  | nil => intro k v hv; cases hv
  | cons kv rest ih =>
    obtain ⟨k0, v0⟩ := kv
    intro k v hv
    have hstep : applySet d ((k0, v0) :: rest) = applySet (setField d k0 v0) rest := rfl
    rw [List.map_cons, List.nodup_cons] at hnodup
    rcases List.mem_cons.mp hv with heq | hmem
    · obtain ⟨hk, hv0⟩ : k0 = k ∧ v0 = v := by
        injection heq.symm with a b; exact ⟨a, b⟩
      subst hk; subst hv0
      have hnone : docGet rest k0 = none := by
        unfold docGet
        rw [Option.map_eq_none', List.find?_eq_none]
        intro x hx
        simp only [decide_eq_true_eq]
        intro hx1
        have hx2 : x.1 ∈ List.map Prod.fst rest := List.mem_map_of_mem Prod.fst hx
        rw [hx1] at hx2
        exact hnodup.1 hx2
      rw [hstep, docGet_applySet_none _ _ _ hnone, docGet_setField_self]
    · rw [hstep]
      exact ih (setField d k0 v0) hnodup.2 k v hmem

theorem matchesFilter_applySet (d : Doc) (patch : Doc)
    (hid : docGet patch "id" = none) :
    matchesFilter (applySet d patch) = matchesFilter d := by
  unfold matchesFilter
  rw [docGet_applySet_none d patch "id" hid]

theorem getContent_cons_pos (d : Doc) (ds : Store) (h : matchesFilter d = true) :
    getContent (d :: ds) = d := by
  unfold getContent findOne
  rw [List.find?_cons_of_pos _ h]
  rfl

theorem getContent_cons_neg (d : Doc) (ds : Store) (h : matchesFilter d = false) :
    getContent (d :: ds) = getContent ds := by
  unfold getContent findOne
  rw [List.find?_cons_of_neg]
  simp [h]

/-- C1: verify accepts a session token if and only if its signature verifies
against the process signing secret and the current time is before the
embedded expiry; in particular a token issued more than 2 hours earlier
fails verification even though its signature is valid (it was produced by
signing with the same secret). -/
theorem verify_accepts_iff (mac : String → Payload → String) (secret : String)
    (t : Token) (now : Nat) (u : Option String) (iat late : Nat)
    (hlate : iat + 7200 < late) :
    (isOk (jwtVerify mac secret t now) = true ↔
      (t.tag = mac secret t.payload ∧ now < t.payload.exp)) ∧
    ((jwtSign mac secret u iat).tag =
        mac secret (jwtSign mac secret u iat).payload ∧
      isOk (jwtVerify mac secret (jwtSign mac secret u iat) late) = false) := by
  refine ⟨?_, rfl, ?_⟩
  · unfold jwtVerify isOk
    by_cases h1 : t.tag = mac secret t.payload
    · by_cases h2 : t.payload.exp ≤ now
      · simp [h1, h2]
      · simp [h1, h2]
        omega
    · simp [h1]
  · unfold jwtSign jwtVerify isOk
    have h : iat + 7200 ≤ late := by omega
    simp [h]

/-- Witness for C1 at a concrete token, time and MAC. -/
theorem verify_accepts_iff_witness :
    0 + 7200 < 7201 ∧
    ((isOk (jwtVerify demoMac "secretkey" demoToken 5) = true ↔
      (demoToken.tag = demoMac "secretkey" demoToken.payload ∧
        5 < demoToken.payload.exp)) ∧
    ((jwtSign demoMac "secretkey" (some "admin") 0).tag =
        demoMac "secretkey" (jwtSign demoMac "secretkey" (some "admin") 0).payload ∧
      isOk (jwtVerify demoMac "secretkey"
        (jwtSign demoMac "secretkey" (some "admin") 0) 7201) = false)) :=
  ⟨by decide,
    verify_accepts_iff demoMac "secretkey" demoToken 5 (some "admin") 0 7201
      (by decide)⟩

/-- C2: for credentials matching the configured admin identity (exact
username, password passing the bcrypt check), login returns 200 Login
exitoso and sets the token cookie with the issued token, and that token is
accepted by verify at every time earlier than 2 hours after issuance. -/
theorem login_success (bcheck : String → String → Bool)
    (mac : String → Payload → String) (admin : AdminUser) (secret : String)
    (opts : CookieOpts) (u pw : String) (now : Nat)
    (hu : u = admin.username) (hpw : bcheck pw admin.passwordHash = true) :
    login bcheck mac admin secret opts (.str u) (.str pw) now =
      .ok ⟨200, "Login exitoso",
        some ⟨"token", jwtSign mac secret (some u) now, opts⟩⟩ ∧
    ∀ t : Nat, t < now + 7200 →
      isOk (jwtVerify mac secret (jwtSign mac secret (some u) now) t) = true := by
  subst hu
  constructor
  · unfold login compareSync
    simp [hpw, jsAsStr]
  · intro t ht
    unfold jwtSign jwtVerify isOk
    have h2 : ¬ (now + 7200 ≤ t) := by omega
    simp [h2]

/-- Witness for C2 at the default credentials under the demo primitives. -/
theorem login_success_witness :
    ("admin" = demoAdmin.username ∧
      demoBcheck "123456" demoAdmin.passwordHash = true) ∧
    (login demoBcheck demoMac demoAdmin "secretkey" (part000CookieOpts true)
        (.str "admin") (.str "123456") 0 =
      .ok ⟨200, "Login exitoso",
        some ⟨"token", jwtSign demoMac "secretkey" (some "admin") 0,
          part000CookieOpts true⟩⟩ ∧
    ∀ t : Nat, t < 0 + 7200 →
      isOk (jwtVerify demoMac "secretkey"
        (jwtSign demoMac "secretkey" (some "admin") 0) t) = true) :=
  ⟨⟨rfl, by decide⟩,
    login_success demoBcheck demoMac demoAdmin "secretkey"
      (part000CookieOpts true) "admin" "123456" 0 rfl (by decide)⟩

/-- C6: for credentials not matching the configured identity (wrong username,
or a string password failing the bcrypt comparison), login responds 401
Credenciales inválidas and sets no cookie. -/
theorem login_rejects (bcheck : String → String → Bool)
    (mac : String → Payload → String) (admin : AdminUser) (secret : String)
    (opts : CookieOpts) (username password : JsVal) (now : Nat)
    (h : username ≠ JsVal.str admin.username ∨
      ∃ s, password = JsVal.str s ∧ bcheck s admin.passwordHash = false) :
    login bcheck mac admin secret opts username password now =
      .ok ⟨401, "Credenciales inválidas", none⟩ := by
  unfold login
  by_cases hu : username = JsVal.str admin.username
  · rcases h with h | ⟨s, hs, hb⟩
    · exact absurd hu h
    · subst hs
      simp [hu, compareSync, hb]
  · simp [hu]

/-- Witness for C6 at a wrong password under the demo primitives. -/
theorem login_rejects_witness :
    (JsVal.str "admin" ≠ JsVal.str demoAdmin.username ∨
      ∃ s, JsVal.str "wrong" = JsVal.str s ∧
        demoBcheck s demoAdmin.passwordHash = false) ∧
    login demoBcheck demoMac demoAdmin "secretkey" (appJsCookieOpts false)
        (.str "admin") (.str "wrong") 3 =
      .ok ⟨401, "Credenciales inválidas", none⟩ :=
  ⟨Or.inr ⟨"wrong", rfl, by decide⟩,
    login_rejects demoBcheck demoMac demoAdmin "secretkey"
      (appJsCookieOpts false) (.str "admin") (.str "wrong") 3
      (Or.inr ⟨"wrong", rfl, by decide⟩)⟩

/-- C9: the gate checks only signature and expiry and ignores the payload
subject: every token signed with the process secret and unexpired is
let through whatever username (or none at all) it embeds, and the gate result
is the same bare proceed for any two subjects — verifyAdmin takes no admin
identity and hands nothing to the downstream handler. -/
theorem gate_ignores_subject (mac : String → Payload → String)
    (secret : String) (iat now : Nat) (h : now < iat + 7200) :
    (∀ u : Option String,
      verifyAdmin mac secret
        (some (.wellFormed (jwtSign mac secret u iat))) now = .proceed) ∧
    (∀ u1 u2 : Option String,
      verifyAdmin mac secret
          (some (.wellFormed (jwtSign mac secret u1 iat))) now =
        verifyAdmin mac secret
          (some (.wellFormed (jwtSign mac secret u2 iat))) now) := by
  have hmain : ∀ u : Option String,
      verifyAdmin mac secret
        (some (.wellFormed (jwtSign mac secret u iat))) now = .proceed := by
    intro u
    unfold verifyAdmin jwtVerifyRaw jwtSign jwtVerify
    have h2 : ¬ (iat + 7200 ≤ now) := by omega
    simp [h2]
  exact ⟨hmain, fun u1 u2 => by rw [hmain u1, hmain u2]⟩

/-- Witness for C9 at time 5 for a token issued at 0. -/
theorem gate_ignores_subject_witness :
    5 < 0 + 7200 ∧
    ((∀ u : Option String,
      verifyAdmin demoMac "secretkey"
        (some (.wellFormed (jwtSign demoMac "secretkey" u 0))) 5 = .proceed) ∧
    (∀ u1 u2 : Option String,
      verifyAdmin demoMac "secretkey"
          (some (.wellFormed (jwtSign demoMac "secretkey" u1 0))) 5 =
        verifyAdmin demoMac "secretkey"
          (some (.wellFormed (jwtSign demoMac "secretkey" u2 0))) 5)) :=
  ⟨by decide, gate_ignores_subject demoMac "secretkey" 0 5 (by decide)⟩

/-- C10: when the username matches the configured admin username but the
password field of the body is absent (undefined) or any non-string value,
bcrypt.compareSync throws Illegal arguments, so the handler surfaces an
exception and never returns the 401 Credenciales inválidas response (nor
any response at all). -/
theorem login_throws_on_nonstring_password (bcheck : String → String → Bool)
    (mac : String → Payload → String) (admin : AdminUser) (secret : String)
    (opts : CookieOpts) (password : JsVal) (now : Nat)
    (h : ∀ s, password ≠ JsVal.str s) :
    login bcheck mac admin secret opts (.str admin.username) password now =
      .error "Illegal arguments" ∧
    ∀ r : LoginResponse,
      login bcheck mac admin secret opts (.str admin.username) password now ≠
        .ok r := by
  have h1 : login bcheck mac admin secret opts (.str admin.username)
      password now = .error "Illegal arguments" := by
    unfold login compareSync
    cases password with
    | str s => exact absurd rfl (h s)
    | num n => simp
    | boolean b => simp
    | null => simp
    | undef => simp
  refine ⟨h1, fun r hr => ?_⟩
  rw [h1] at hr
  exact Except.noConfusion hr

/-- Witness for C10 at an absent (undefined) password. -/
theorem login_throws_on_nonstring_password_witness :
    (∀ s, JsVal.undef ≠ JsVal.str s) ∧
    (login demoBcheck demoMac demoAdmin "secretkey" (appJsCookieOpts false)
        (.str demoAdmin.username) JsVal.undef 7 = .error "Illegal arguments" ∧
    ∀ r : LoginResponse,
      login demoBcheck demoMac demoAdmin "secretkey" (appJsCookieOpts false)
          (.str demoAdmin.username) JsVal.undef 7 ≠ .ok r) :=
  ⟨fun _ hs => JsVal.noConfusion hs,
    login_throws_on_nonstring_password demoBcheck demoMac demoAdmin
      "secretkey" (appJsCookieOpts false) JsVal.undef 7
      (fun _ hs => JsVal.noConfusion hs)⟩

/-- C3 counterexample: the admin page route with no cookie answers a 302
redirect to /login.html — its status is neither 401 Unauthorized nor even
the 403 the Gate uses — so the claim that the Authorization Gate rejects
the admin page with Unauthorized is false at this input. -/
theorem gate_admin_redirect_counterexample :
    adminPage demoMac "secretkey" none 0 = ⟨302, "/login.html"⟩ ∧
    (adminPage demoMac "secretkey" none 0).status ≠ 401 ∧
    (adminPage demoMac "secretkey" none 0).status ≠ 403 := by
  refine ⟨rfl, ?_, ?_⟩ <;> decide

/-- C3 amended: on the API routes behind verifyAdmin (content-update, image
upload) a request with no cookie is rejected 403 No autorizado and one with
a cookie failing verification 403 Token inválido, in both cases before the
handler runs (the state is returned untouched); the admin page route makes
the same token check inline but responds with a redirect to /login.html in
both failure cases, likewise without serving the page. -/
theorem gate_rejects_before_handler {σ : Type}
    (mac : String → Payload → String) (secret : String) (now : Nat)
    (handler : σ → σ × Response) (st : σ) (raw : RawToken)
    (body : Doc) (store : Store)
    (hbad : isOk (jwtVerifyRaw mac secret raw now) = false) :
    gatedRoute mac secret none now handler st =
      (st, ⟨403, "No autorizado"⟩) ∧
    gatedRoute mac secret (some raw) now handler st =
      (st, ⟨403, "Token inválido"⟩) ∧
    updateSectionRoute mac secret none now body store =
      (store, ⟨403, "No autorizado"⟩) ∧
    updateSectionRoute mac secret (some raw) now body store =
      (store, ⟨403, "Token inválido"⟩) ∧
    adminPage mac secret none now = ⟨302, "/login.html"⟩ ∧
    adminPage mac secret (some raw) now = ⟨302, "/login.html"⟩ := by
  obtain ⟨e, he⟩ : ∃ e, jwtVerifyRaw mac secret raw now = .error e := by
    cases hres : jwtVerifyRaw mac secret raw now with
    | ok p =>
      rw [hres] at hbad
      simp [isOk] at hbad
    | error e => exact ⟨e, rfl⟩
  refine ⟨rfl, ?_, rfl, ?_, rfl, ?_⟩
  · simp [gatedRoute, verifyAdmin, he]
  · simp [updateSectionRoute, gatedRoute, verifyAdmin, he]
  · simp [adminPage, he]

/-- Witness for C3 amended, with a malformed cookie value and a counter as
the handler state. -/
theorem gate_rejects_before_handler_witness :
    isOk (jwtVerifyRaw demoMac "secretkey" (.malformed "garbage") 0) = false ∧
    (gatedRoute demoMac "secretkey" none 0
        (fun n : Nat => (n + 1, ⟨200, "ok"⟩)) 0 =
      (0, ⟨403, "No autorizado"⟩) ∧
    gatedRoute demoMac "secretkey" (some (.malformed "garbage")) 0
        (fun n : Nat => (n + 1, ⟨200, "ok"⟩)) 0 =
      (0, ⟨403, "Token inválido"⟩) ∧
    updateSectionRoute demoMac "secretkey" none 0 [] [] =
      ([], ⟨403, "No autorizado"⟩) ∧
    updateSectionRoute demoMac "secretkey" (some (.malformed "garbage")) 0
        [] [] =
      ([], ⟨403, "Token inválido"⟩) ∧
    adminPage demoMac "secretkey" none 0 = ⟨302, "/login.html"⟩ ∧
    adminPage demoMac "secretkey" (some (.malformed "garbage")) 0 =
      ⟨302, "/login.html"⟩) :=
  ⟨by decide,
    gate_rejects_before_handler demoMac "secretkey" 0
      (fun n : Nat => (n + 1, ⟨200, "ok"⟩)) 0 (.malformed "garbage") [] []
      (by decide)⟩

/-- C4 counterexample: a request with no cookie and one with a malformed
cookie get different response bodies from verifyAdmin (No autorizado versus
Token inválido), so the rejection does reveal missing versus present-but-
invalid and the claim of identical responses is false at this input. -/
theorem rejection_leak_counterexample :
    verifyAdmin demoMac "secretkey" none 0 =
      .reject ⟨403, "No autorizado"⟩ ∧
    verifyAdmin demoMac "secretkey" (some (.malformed "not-a-jwt")) 0 =
      .reject ⟨403, "Token inválido"⟩ ∧
    verifyAdmin demoMac "secretkey" none 0 ≠
      verifyAdmin demoMac "secretkey" (some (.malformed "not-a-jwt")) 0 := by
  refine ⟨rfl, rfl, ?_⟩
  decide

/-- C4 amended: any two present-but-invalid tokens — malformed, expired or
wrongly signed alike — get the identical 403 Token inválido response, and a
missing token gets the same 403 status, but with the distinct body No
autorizado: only missing versus present-but-invalid is revealed. -/
theorem rejection_uniform_among_invalid (mac : String → Payload → String)
    (secret : String) (now : Nat) (r1 r2 : RawToken)
    (h1 : isOk (jwtVerifyRaw mac secret r1 now) = false)
    (h2 : isOk (jwtVerifyRaw mac secret r2 now) = false) :
    verifyAdmin mac secret (some r1) now =
      verifyAdmin mac secret (some r2) now ∧
    verifyAdmin mac secret (some r1) now =
      .reject ⟨403, "Token inválido"⟩ ∧
    verifyAdmin mac secret none now = .reject ⟨403, "No autorizado"⟩ ∧
    (Response.mk 403 "No autorizado").status =
      (Response.mk 403 "Token inválido").status := by
  obtain ⟨e1, he1⟩ : ∃ e, jwtVerifyRaw mac secret r1 now = .error e := by
    cases hres : jwtVerifyRaw mac secret r1 now with
    | ok p =>
      rw [hres] at h1
      simp [isOk] at h1
    | error e => exact ⟨e, rfl⟩
  obtain ⟨e2, he2⟩ : ∃ e, jwtVerifyRaw mac secret r2 now = .error e := by
    cases hres : jwtVerifyRaw mac secret r2 now with
    | ok p =>
      rw [hres] at h2
      simp [isOk] at h2
    | error e => exact ⟨e, rfl⟩
  have hv1 : verifyAdmin mac secret (some r1) now =
      .reject ⟨403, "Token inválido"⟩ := by
    simp [verifyAdmin, he1]
  have hv2 : verifyAdmin mac secret (some r2) now =
      .reject ⟨403, "Token inválido"⟩ := by
    simp [verifyAdmin, he2]
  exact ⟨hv1.trans hv2.symm, hv1, rfl, rfl⟩

/-- Witness for C4 amended: a malformed cookie and an expired well-signed
token collapse to the identical rejection. -/
theorem rejection_uniform_among_invalid_witness :
    (isOk (jwtVerifyRaw demoMac "secretkey" (.malformed "zzz") 99999) =
      false ∧
    isOk (jwtVerifyRaw demoMac "secretkey" (.wellFormed demoToken) 99999) =
      false) ∧
    (verifyAdmin demoMac "secretkey" (some (.malformed "zzz")) 99999 =
      verifyAdmin demoMac "secretkey" (some (.wellFormed demoToken)) 99999 ∧
    verifyAdmin demoMac "secretkey" (some (.malformed "zzz")) 99999 =
      .reject ⟨403, "Token inválido"⟩ ∧
    verifyAdmin demoMac "secretkey" none 99999 =
      .reject ⟨403, "No autorizado"⟩ ∧
    (Response.mk 403 "No autorizado").status =
      (Response.mk 403 "Token inválido").status) :=
  ⟨⟨by decide, by decide⟩,
    rejection_uniform_among_invalid demoMac "secretkey" 99999
      (.malformed "zzz") (.wellFormed demoToken) (by decide) (by decide)⟩

/-- C5 counterexample: a patch that writes the id field (the singleton key
the filter matches on) breaks the upsert-merge contract: starting from a
stored document with a title, updating with the patch whose one field is
id = x makes get() return the empty document, which neither contains the
patch field nor retains the previously stored title. -/
theorem upsert_merge_counterexample :
    getContent (updateOneUpsert
        [[("id", JsVal.str "site-content"), ("title", JsVal.str "Home")]]
        [("id", JsVal.str "x")]) = [] ∧
    docGet (getContent (updateOneUpsert
        [[("id", JsVal.str "site-content"), ("title", JsVal.str "Home")]]
        [("id", JsVal.str "x")])) "id" ≠ some (JsVal.str "x") ∧
    docGet (getContent
        [[("id", JsVal.str "site-content"), ("title", JsVal.str "Home")]])
        "title" = some (JsVal.str "Home") ∧
    docGet (getContent (updateOneUpsert
        [[("id", JsVal.str "site-content"), ("title", JsVal.str "Home")]]
        [("id", JsVal.str "x")])) "title" ≠ some (JsVal.str "Home") := by
  refine ⟨?_, ?_, ?_, ?_⟩ <;> decide

/-- C5 amended: for every patch with unique keys that does not name the id
field the singleton filter matches on, and every prior collection state,
update followed by get yields a document containing every field of the
patch with its new value and every field of the previously visible document
not named in the patch with its prior value (the document is created when
absent; stored fields are never dropped). -/
theorem update_then_get (patch : Doc) (store : Store)
    (hnodup : (patch.map Prod.fst).Nodup)
    (hid : docGet patch "id" = none) :
    (∀ k v, (k, v) ∈ patch →
      docGet (getContent (updateOneUpsert store patch)) k = some v) ∧
    (∀ k v, docGet patch k = none → docGet (getContent store) k = some v →
      docGet (getContent (updateOneUpsert store patch)) k = some v) := by
  induction store with
  | nil =>
    have hbase :
        matchesFilter (applySet [("id", JsVal.str "site-content")] patch) =
          true := by
      rw [matchesFilter_applySet _ _ hid]
      decide
    have hupd : updateOneUpsert [] patch =
        [applySet [("id", JsVal.str "site-content")] patch] := rfl
    constructor
    · intro k v hkv
      rw [hupd, getContent_cons_pos _ _ hbase]
      exact docGet_applySet_mem _ _ hnodup k v hkv
    · intro k v _ hprev
      simp [getContent, findOne, docGet] at hprev
  | cons d ds ih =>
    by_cases hd : matchesFilter d = true
    · have hupd : updateOneUpsert (d :: ds) patch =
          applySet d patch :: ds := by
        unfold updateOneUpsert
        rw [if_pos hd]
      have hm : matchesFilter (applySet d patch) = true := by
        rw [matchesFilter_applySet _ _ hid]
        exact hd
      constructor
      · intro k v hkv
        rw [hupd, getContent_cons_pos _ _ hm]
        exact docGet_applySet_mem _ _ hnodup k v hkv
      · intro k v hk hprev
        rw [getContent_cons_pos _ _ hd] at hprev
        rw [hupd, getContent_cons_pos _ _ hm,
          docGet_applySet_none _ _ _ hk]
        exact hprev
    · have hd2 : matchesFilter d = false := by
        simpa using hd
      have hupd : updateOneUpsert (d :: ds) patch =
          d :: updateOneUpsert ds patch := by
        simp only [updateOneUpsert]
        rw [if_neg hd]
      constructor
      · intro k v hkv
        rw [hupd, getContent_cons_neg _ _ hd2]
        exact ih.1 k v hkv
      · intro k v hk hprev
        rw [getContent_cons_neg _ _ hd2] at hprev
        rw [hupd, getContent_cons_neg _ _ hd2]
        exact ih.2 k v hk hprev

/-- Witness for C5 amended: a one-field title patch over a stored document
holding a title and a slogan. -/
theorem update_then_get_witness :
    (([("title", JsVal.str "Hi")].map Prod.fst).Nodup ∧
      docGet [("title", JsVal.str "Hi")] "id" = none) ∧
    ((∀ k v, (k, v) ∈ [("title", JsVal.str "Hi")] →
      docGet (getContent (updateOneUpsert
        [[("id", JsVal.str "site-content"), ("title", JsVal.str "Old"),
          ("slogan", JsVal.str "Bee")]]
        [("title", JsVal.str "Hi")])) k = some v) ∧
    (∀ k v, docGet [("title", JsVal.str "Hi")] k = none →
      docGet (getContent
        [[("id", JsVal.str "site-content"), ("title", JsVal.str "Old"),
          ("slogan", JsVal.str "Bee")]]) k = some v →
      docGet (getContent (updateOneUpsert
        [[("id", JsVal.str "site-content"), ("title", JsVal.str "Old"),
          ("slogan", JsVal.str "Bee")]]
        [("title", JsVal.str "Hi")])) k = some v)) :=
  ⟨⟨by decide, by decide⟩,
    update_then_get [("title", JsVal.str "Hi")]
      [[("id", JsVal.str "site-content"), ("title", JsVal.str "Old"),
        ("slogan", JsVal.str "Bee")]]
      (by decide) (by decide)⟩

theorem isValidString_iff (v : JsVal) :
    isValidString v = true ↔ ∃ s, v = JsVal.str s ∧ jsTrim s ≠ "" := by
  cases v with
  | str s => simp [isValidString]
  | num n => simp [isValidString]
  | boolean b => simp [isValidString]
  | null => simp [isValidString]
  | undef => simp [isValidString]

/-- C7: a contact submission is accepted exactly when gname, gmail and
message are strings non-empty after trimming; the submission gname A,
gmail a at x.com, empty message is rejected 400 with no mail built (no send
triggered); acceptance never depends on the child fields cname and cage,
and on acceptance they are interpolated verbatim into the mail text. -/
theorem contact_validation (emailTo : String)
    (gname gmail cname cage message cname2 cage2 : JsVal) :
    (isOk (enviarCorreo emailTo gname gmail cname cage message) = true ↔
      ((∃ a, gname = JsVal.str a ∧ jsTrim a ≠ "") ∧
       (∃ b, gmail = JsVal.str b ∧ jsTrim b ≠ "") ∧
       (∃ c, message = JsVal.str c ∧ jsTrim c ≠ ""))) ∧
    (enviarCorreo emailTo (JsVal.str "A") (JsVal.str "a@x.com") cname cage
        (JsVal.str "") =
      .error ⟨400, "Por favor, completa todos los campos obligatorios."⟩) ∧
    (isOk (enviarCorreo emailTo gname gmail cname cage message) =
      isOk (enviarCorreo emailTo gname gmail cname2 cage2 message)) ∧
    (isOk (enviarCorreo emailTo gname gmail cname cage message) = true →
      enviarCorreo emailTo gname gmail cname cage message =
        .ok ⟨jsToString gmail, emailTo,
          "Consulta de " ++ jsToString gname ++ " - Bee Bright",
          "Nombre: " ++ jsToString gname ++ "\nCorreo: " ++
            jsToString gmail ++ "\nNombre del niño: " ++ jsToString cname ++
            "\nEdad: " ++ jsToString cage ++ "\n\nMensaje:\n" ++
            jsToString message⟩) := by
  refine ⟨?_, ?_, ?_, ?_⟩
  · rw [← isValidString_iff, ← isValidString_iff, ← isValidString_iff]
    unfold enviarCorreo isOk
    by_cases h1 : isValidString gname <;>
      by_cases h2 : isValidString gmail <;>
        by_cases h3 : isValidString message <;>
          simp [h1, h2, h3]
  · have hc : (!isValidString (JsVal.str "A") ||
        !isValidString (JsVal.str "a@x.com") ||
        !isValidString (JsVal.str "")) = true := by decide
    simp [enviarCorreo, hc]
  · by_cases h : (!isValidString gname || !isValidString gmail ||
        !isValidString message) = true
    · simp [enviarCorreo, isOk, h]
    · simp [enviarCorreo, isOk, h]
  · intro hok
    by_cases h : (!isValidString gname || !isValidString gmail ||
        !isValidString message) = true
    · simp [enviarCorreo, isOk, h] at hok
    · simp [enviarCorreo, isOk, h]

/-- Witness for C7 at a concrete submission. -/
theorem contact_validation_witness :
    (isOk (enviarCorreo "emicantarero@gmail.com" (JsVal.str "Ana")
        (JsVal.str "ana@x.com") JsVal.undef (JsVal.num 5)
        (JsVal.str "Hola")) = true ↔
      ((∃ a, JsVal.str "Ana" = JsVal.str a ∧ jsTrim a ≠ "") ∧
       (∃ b, JsVal.str "ana@x.com" = JsVal.str b ∧ jsTrim b ≠ "") ∧
       (∃ c, JsVal.str "Hola" = JsVal.str c ∧ jsTrim c ≠ ""))) ∧
    (enviarCorreo "emicantarero@gmail.com" (JsVal.str "A")
        (JsVal.str "a@x.com") JsVal.undef (JsVal.num 5) (JsVal.str "") =
      .error ⟨400, "Por favor, completa todos los campos obligatorios."⟩) ∧
    (isOk (enviarCorreo "emicantarero@gmail.com" (JsVal.str "Ana")
        (JsVal.str "ana@x.com") JsVal.undef (JsVal.num 5)
        (JsVal.str "Hola")) =
      isOk (enviarCorreo "emicantarero@gmail.com" (JsVal.str "Ana")
        (JsVal.str "ana@x.com") (JsVal.str "Leo") JsVal.null
        (JsVal.str "Hola"))) ∧
    (isOk (enviarCorreo "emicantarero@gmail.com" (JsVal.str "Ana")
        (JsVal.str "ana@x.com") JsVal.undef (JsVal.num 5)
        (JsVal.str "Hola")) = true →
      enviarCorreo "emicantarero@gmail.com" (JsVal.str "Ana")
          (JsVal.str "ana@x.com") JsVal.undef (JsVal.num 5)
          (JsVal.str "Hola") =
        .ok ⟨jsToString (JsVal.str "ana@x.com"), "emicantarero@gmail.com",
          "Consulta de " ++ jsToString (JsVal.str "Ana") ++ " - Bee Bright",
          "Nombre: " ++ jsToString (JsVal.str "Ana") ++ "\nCorreo: " ++
            jsToString (JsVal.str "ana@x.com") ++ "\nNombre del niño: " ++
            jsToString JsVal.undef ++ "\nEdad: " ++
            jsToString (JsVal.num 5) ++ "\n\nMensaje:\n" ++
            jsToString (JsVal.str "Hola")⟩) :=
  contact_validation "emicantarero@gmail.com" (JsVal.str "Ana")
    (JsVal.str "ana@x.com") JsVal.undef (JsVal.num 5) (JsVal.str "Hola")
    (JsVal.str "Leo") JsVal.null

/-- C8 counterexample: with the production flag set, a successful login in
the src/app.js variant still sets the cookie with secure false and no
sameSite attribute, so the claimed attributes (secure exactly in
production, sameSite None) are false at this input. -/
theorem cookie_attributes_counterexample :
    loginAppJs demoBcheck demoMac demoAdmin "secretkey" true
        (.str "admin") (.str "123456") 0 =
      .ok ⟨200, "Login exitoso",
        some ⟨"token", demoToken, ⟨true, false, none⟩⟩⟩ ∧
    (CookieOpts.mk true false none).secure = false ∧
    (CookieOpts.mk true false none).sameSite ≠ some "None" := by
  refine ⟨?_, rfl, ?_⟩ <;> decide

/-- C8 amended: on every successful login the cookie named token is set
http-only in both variants; the src/unnamed/part_000 variant sets secure
exactly when in production and sameSite None as the claim states, while the
src/app.js variant sets secure false regardless of the environment and
omits the sameSite attribute. -/
theorem cookie_attributes (bcheck : String → String → Bool)
    (mac : String → Payload → String) (admin : AdminUser) (secret : String)
    (isProduction : Bool) (u pw : String) (now : Nat)
    (hu : u = admin.username) (hpw : bcheck pw admin.passwordHash = true) :
    loginPart000 bcheck mac admin secret isProduction (.str u) (.str pw)
        now =
      .ok ⟨200, "Login exitoso",
        some ⟨"token", jwtSign mac secret (some u) now,
          ⟨true, isProduction, some "None"⟩⟩⟩ ∧
    loginAppJs bcheck mac admin secret isProduction (.str u) (.str pw)
        now =
      .ok ⟨200, "Login exitoso",
        some ⟨"token", jwtSign mac secret (some u) now,
          ⟨true, false, none⟩⟩⟩ := by
  subst hu
  unfold loginPart000 loginAppJs login compareSync part000CookieOpts
    appJsCookieOpts
  simp [hpw, jsAsStr]

/-- Witness for C8 amended at the default credentials, production flag on. -/
theorem cookie_attributes_witness :
    ("admin" = demoAdmin.username ∧
      demoBcheck "123456" demoAdmin.passwordHash = true) ∧
    (loginPart000 demoBcheck demoMac demoAdmin "secretkey" true
        (.str "admin") (.str "123456") 0 =
      .ok ⟨200, "Login exitoso",
        some ⟨"token", jwtSign demoMac "secretkey" (some "admin") 0,
          ⟨true, true, some "None"⟩⟩⟩ ∧
    loginAppJs demoBcheck demoMac demoAdmin "secretkey" true
        (.str "admin") (.str "123456") 0 =
      .ok ⟨200, "Login exitoso",
        some ⟨"token", jwtSign demoMac "secretkey" (some "admin") 0,
          ⟨true, false, none⟩⟩⟩) :=
  ⟨⟨rfl, by decide⟩,
    cookie_attributes demoBcheck demoMac demoAdmin "secretkey" true
      "admin" "123456" 0 rfl (by decide)⟩

end BeeBright
